import Mathlib

/-!
Verification of the preview engine of the web-code-dreamer repository.

The component under study is the `PreviewFrame` React component
(src/unnamed/part_003).  Two parts are embedded:

1. The bundle assembler `createFullHTML(htmlContent, cssContent, jsContent)`
   (part_003 lines 127-172), a pure function on strings.  Strings are
   modelled as `List Char`; JavaScript `String.prototype.includes` is
   `hasSub`, and `String.prototype.replace` with a string pattern (which
   replaces only the first occurrence) is `replFirst`.  (The `$`-escape
   sequences JavaScript expands inside a replacement string are not
   modelled; none of the replacement text used by the source is affected
   by them in the properties proved here.)

2. The stateful preview controller behaviour of `PreviewFrame`
   (its `useState` fields together with `initWebContainer`,
   `updateWebContainerPreview`, `updateFallbackPreview` and the JSX
   render conditional), embedded as a state machine `step : PState → Ev → PState`
   driven by a trace of completion events chosen by the environment.
   Each event is mapped to the source lines whose effect it performs.
-/

/-! ## Strings as lists of characters -/

abbrev Str : Type := List Char

def str (s : String) : Str := s.toList

/-- JavaScript `l.includes(pat)`: `pat` occurs as a contiguous substring of `l`
(case-sensitive; the empty pattern always occurs). -/
def hasSub : Str → Str → Bool
  | [], pat => pat.isPrefixOf ([] : Str)
  | c :: cs, pat => pat.isPrefixOf (c :: cs) || hasSub cs pat

/-- JavaScript `l.replace(pat, rep)` with a string pattern: replaces the
first occurrence of `pat` in `l` by `rep`; returns `l` unchanged when
`pat` does not occur. -/
def replFirst : Str → Str → Str → Str
  | [], pat, rep => if pat.isPrefixOf ([] : Str) then rep else []
  | c :: cs, pat, rep =>
      if pat.isPrefixOf (c :: cs) then rep ++ (c :: cs).drop pat.length
      else c :: replFirst cs pat rep

/-- Number of positions of `l` at which `pat` occurs (used to count style
and script blocks). -/
def countSub : Str → Str → Nat
  | [], _ => 0
  | c :: cs, pat => (if pat.isPrefixOf (c :: cs) then 1 else 0) + countSub cs pat

/-! ## The literal strings of `createFullHTML` (part_003 lines 127-172) -/

def sDOCTYPE : Str := str "<!DOCTYPE"

def sHTMLOPEN : Str := str "<html"

def sSTYLEOPEN : Str := str "<style>"

def sSCRIPTOPEN : Str := str "<script>"

def sHEADCLOSE : Str := str "</head>"

def sBODYCLOSE : Str := str "</body>"

def sNL : Str := str "\n"

/-- Source line 133: the interpolation `<style>${cssContent}</style>`. -/
def styleTagOf (cssContent : Str) : Str := str "<style>" ++ cssContent ++ str "</style>"

/-- Source line 142: the interpolation `<script>${jsContent}</script>`. -/
def scriptTagOf (jsContent : Str) : Str := str "<script>" ++ jsContent ++ str "</script>"

/-- Source lines 132-139: the CSS-injection block of the full-document
branch.  The two conditions test the ORIGINAL `htmlContent` (exactly as in
the source), and the transformation is applied to the running
`modifiedHTML`, which at this point still equals `htmlContent`. -/
def styleStep (htmlContent cssContent : Str) : Str :=
  if !cssContent.isEmpty && !hasSub htmlContent sSTYLEOPEN then
    if hasSub htmlContent sHEADCLOSE then
      replFirst htmlContent sHEADCLOSE (styleTagOf cssContent ++ sNL ++ sHEADCLOSE)
    else
      styleTagOf cssContent ++ sNL ++ htmlContent
  else htmlContent

/-- Source lines 141-148: the JS-injection block.  Its conditions again
test the ORIGINAL `htmlContent`, while the replacement and the append act
on the running `modifiedHTML` (here the argument `modifiedHTML`). -/
def scriptStep (htmlContent modifiedHTML jsContent : Str) : Str :=
  if !jsContent.isEmpty && !hasSub htmlContent sSCRIPTOPEN then
    if hasSub htmlContent sBODYCLOSE then
      replFirst modifiedHTML sBODYCLOSE (scriptTagOf jsContent ++ sNL ++ sBODYCLOSE)
    else
      modifiedHTML ++ sNL ++ scriptTagOf jsContent
  else modifiedHTML

/-- Source lines 129-151: the branch taken when the HTML already contains
a full-document marker. -/
def injectPath (htmlContent cssContent jsContent : Str) : Str :=
  scriptStep htmlContent (styleStep htmlContent cssContent) jsContent

/-- Pieces of the synthesized-document template of source lines 154-171,
split at the three interpolation points `${cssContent || ''}`,
`${htmlContent}` and `${jsContent || ''}` (for a string argument,
`x || ''` is `x`). -/
def wrapA : Str := str "<!DOCTYPE html>\n<html lang=\"en\">\n<head>\n  <meta charset=\"UTF-8\">\n  <meta name=\"viewport\" content=\"width=device-width, initial-scale=1.0\">\n  <title>Generated App</title>\n  <style>\n    "

def wrapB : Str := str "\n  </style>\n</head>\n<body>\n  "

def wrapC : Str := str "\n  <script>\n    "

def wrapD : Str := str "\n  </script>\n</body>\n</html>"

/-- Source lines 154-171: the synthesized minimal document wrapping a
fragment. -/
def wrapDoc (htmlContent cssContent jsContent : Str) : Str :=
  wrapA ++ cssContent ++ wrapB ++ htmlContent ++ wrapC ++ jsContent ++ wrapD

/-- Source lines 127-172, `createFullHTML`: if the HTML contains the
literal substring `<!DOCTYPE` or `<html`, inject CSS/JS into it; otherwise
wrap it in the synthesized document. -/
def createFullHTML (htmlContent cssContent jsContent : Str) : Str :=
  if hasSub htmlContent sDOCTYPE || hasSub htmlContent sHTMLOPEN then
    injectPath htmlContent cssContent jsContent
  else
    wrapDoc htmlContent cssContent jsContent

/-! ## The preview controller as a state machine

State fields are the `useState` hooks of `PreviewFrame` (part_003 lines
14-18) plus two observers needed by the error-handling claims.  The `url`
string is abstracted to `Option Nat`: `none` is the initial empty string
(falsy in the JSX conditional), `some i` is the preview URL delivered by
the server-ready event of mount attempt `i`. -/

structure PState where
  /-- `webcontainerInstance !== null` (line 15). -/
  hasInstance : Bool
  /-- the `url` state (line 16); `none` models the falsy empty string. -/
  url : Option Nat
  /-- the `isLoading` state (line 17). -/
  isLoading : Bool
  /-- the `useWebContainer` state (line 18); `true` is Sandboxed mode,
  `false` is Fallback mode. -/
  useWebContainer : Bool
  /-- number of `toast.error` notifications raised by catch blocks. -/
  errorToasts : Nat
  /-- number of promise rejections not caught by any handler. -/
  unhandled : Nat
deriving DecidableEq, Repr

/-- The initial hook values (lines 15-18). -/
def psInit : PState :=
  { hasInstance := false, url := none, isLoading := false,
    useWebContainer := true, errorToasts := 0, unhandled := 0 }

/-- Completion events delivered to the component by the runtime. -/
inductive Ev where
  /-- `WebContainer.boot()` resolves (lines 41-45, incl. the finally). -/
  | bootOk
  /-- `WebContainer.boot()` rejects (lines 47-53). -/
  | bootFail
  /-- a new bundle `id` arrives: the effect of lines 25-34 runs. -/
  | bundleChange (id : Nat)
  /-- an awaited step of `updateWebContainerPreview` (mount, install
  spawn, or a non-zero install exit) throws: the catch of lines 112-117. -/
  | mountOrInstallFail
  /-- the un-awaited `spawn('npm', ['start'])` of line 101 rejects. -/
  | startSpawnFail
  /-- the `server-ready` event fires for attempt `id`: the listener body
  of lines 105-110. -/
  | serverReady (id : Nat)
  /-- wall-clock time passes; no code in the component reacts to it. -/
  | tick
deriving DecidableEq, Repr

/-- One event handled by the component, line by line:
* `bootOk`: `setWebcontainerInstance(webcontainer)` then the `finally`
  `setIsLoading(false)`.
* `bootFail`: `toast.error(...)`; `setUseWebContainer(false)`; `finally`
  `setIsLoading(false)`.
* `bundleChange`: if an instance exists and `useWebContainer` holds,
  `updateWebContainerPreview()` begins and its first action is
  `setIsLoading(true)` (line 61); otherwise `updateFallbackPreview()`
  runs, whose only effect is `setIsLoading(false)` (lines 123-125).
* `mountOrInstallFail`: the catch block: `toast.error(...)`,
  `setUseWebContainer(false)`, `updateFallbackPreview()`.
* `startSpawnFail`: the promise of line 101 is never awaited and has no
  rejection handler, so the rejection escapes; no state or toast changes.
* `serverReady id`: the listener body runs unconditionally:
  `setUrl(url)`, `setIsLoading(false)` — it checks neither a liveness
  flag nor whether attempt `id` is still the most recent one.
* `tick`: nothing listens to time; the state is unchanged. -/
def step (s : PState) : Ev → PState
  | Ev.bootOk => { s with hasInstance := true, isLoading := false }
  | Ev.bootFail =>
      { s with useWebContainer := false, isLoading := false,
               errorToasts := s.errorToasts + 1 }
  | Ev.bundleChange _ =>
      if s.hasInstance && s.useWebContainer then { s with isLoading := true }
      else { s with isLoading := false }
  | Ev.mountOrInstallFail =>
      if s.hasInstance then
        { s with useWebContainer := false, isLoading := false,
                 errorToasts := s.errorToasts + 1 }
      else s
  | Ev.startSpawnFail =>
      if s.hasInstance then { s with unhandled := s.unhandled + 1 } else s
  | Ev.serverReady id =>
      if s.hasInstance then { s with url := some id, isLoading := false } else s
  | Ev.tick => s

/-- Run the component over a trace of events. -/
def run (s : PState) (evs : List Ev) : PState := evs.foldl step s

/-- What the render target currently displays, from the JSX conditional
of lines 209-224: `useWebContainer && url ? <iframe src={url}/> :
<iframe srcDoc={combinedHTML} sandbox=.../>`. -/
inductive Shown where
  | sandboxed (id : Nat)
  | fallbackDoc
deriving DecidableEq, Repr

def shown (s : PState) : Shown :=
  match s.useWebContainer, s.url with
  | true, some id => Shown.sandboxed id
  | _, _ => Shown.fallbackDoc

/-- The id carried by the last `serverReady` event of a trace, starting
from a previous value `u`. -/
def lastReadyFrom (u : Option Nat) (evs : List Ev) : Option Nat :=
  evs.foldl (fun acc e => match e with | Ev.serverReady id => some id | _ => acc) u

/-! ## The sandbox attribute of the fallback iframe -/

/-- The token list of the `sandbox` attribute on the fallback (srcDoc)
iframe, part_003 line 219. -/
def fallbackSandboxTokens : List String :=
  ["allow-scripts", "allow-same-origin", "allow-forms", "allow-modals"]

/-- Modelled from the spec: the capability set the spec says is granted
to the embedded fallback surface — "permit script execution and
same-origin access ..., permit form submission" (spec section 4.3). -/
def specCapabilityTokens : List String :=
  ["allow-scripts", "allow-same-origin", "allow-forms"]

/-! ## Concrete inputs used by counterexamples and witnesses -/

/-- A full document that already holds a style block but no script block. -/
def styleOnlyDoc : Str := str "<html><style></style></html>"

/-- A complete document written with lower-case doctype and upper-case
root element: it contains neither `<!DOCTYPE` nor `<html` literally. -/
def lcDoc : Str := str "<!doctype html><HTML><BODY>hi</BODY></HTML>"

/-- A fragment that mentions `<html` incidentally inside text content. -/
def incHtml : Str := str "<p>see the <html element</p>"

/-- A trace in which the sandbox boots, a mount attempt starts, and then
time passes 100000 times with the server-ready event never firing. -/
def stuckTrace : List Ev :=
  Ev.bootOk :: Ev.bundleChange 1 :: List.replicate 100000 Ev.tick

/-! ## List lemmas: substring search and first-occurrence replacement -/

theorem isPrefixOf_eq_true_iff (l p : Str) : l.isPrefixOf p = true ↔ l <+: p :=
  List.isPrefixOf_iff_prefix

theorem hasSub_iff (l pat : Str) : hasSub l pat = true ↔ pat <:+: l := by
  induction l with
  | nil =>
    simp [hasSub, isPrefixOf_eq_true_iff]
  | cons c cs ih =>
    simp [hasSub, Bool.or_eq_true, isPrefixOf_eq_true_iff, ih, List.infix_cons_iff]

theorem sub_append_left (n a b : Str) (h : n <:+: a) : n <:+: a ++ b := by
  obtain ⟨s, t, hst⟩ := h
  exact ⟨s, t ++ b, by rw [← hst]; simp⟩

theorem sub_append_right (n a b : Str) (h : n <:+: b) : n <:+: a ++ b := by
  obtain ⟨s, t, hst⟩ := h
  exact ⟨a ++ s, t, by rw [← hst]; simp⟩

theorem replFirst_of_sub (pat rep l : Str) (h : pat <:+: l) :
    ∃ a b, l = a ++ pat ++ b ∧ replFirst l pat rep = a ++ rep ++ b := by
  induction l with
  | nil =>
    have hnil : pat = [] := List.eq_nil_of_infix_nil h
    subst hnil
    exact ⟨[], [], by simp, by simp [replFirst]⟩
  | cons c cs ih =>
    cases hp : pat.isPrefixOf (c :: cs) with
    | true =>
      obtain ⟨t, ht⟩ := (isPrefixOf_eq_true_iff pat (c :: cs)).1 hp
      refine ⟨[], t, by simp [← ht], ?_⟩
      simp only [replFirst, hp, if_true]
      rw [← ht, List.drop_left]
      simp
    | false =>
      have hcs : pat <:+: cs := by
        rcases (List.infix_cons_iff).1 h with h1 | h2
        · have := (isPrefixOf_eq_true_iff pat (c :: cs)).2 h1
          rw [hp] at this
          exact absurd this (by simp)
        · exact h2
      obtain ⟨a, b, hab, hr⟩ := ih hcs
      refine ⟨c :: a, b, by simp [hab], ?_⟩
      simp only [replFirst, hp, if_false, Bool.false_eq_true, hr]
      simp

theorem replFirst_append_of_no_hit (pat rep n rest : Str)
    (h : ∀ k, k < n.length → pat.isPrefixOf ((n ++ rest).drop k) = false) :
    replFirst (n ++ rest) pat rep = n ++ replFirst rest pat rep := by
  induction n with
  | nil => simp
  | cons c n' ih =>
    have h0 := h 0 (by simp)
    simp only [List.drop_zero, List.cons_append] at h0
    have hneg : ¬ (pat.isPrefixOf (c :: (n' ++ rest)) = true) := by
      intro hc
      rw [hc] at h0
      exact absurd h0 (by simp)
    have hstep : replFirst ((c :: n') ++ rest) pat rep
        = c :: replFirst (n' ++ rest) pat rep := by
      simp only [List.cons_append, replFirst, List.append_eq]
      rw [if_neg hneg]
    rw [hstep, ih ?_]
    · simp
    · intro k hk
      have := h (k + 1) (by simpa using Nat.succ_lt_succ hk)
      simpa using this

theorem sub_replFirst_pres (n₂ p₂ t p rep l : Str) (hfree : '<' ∉ n₂)
    (hp : p = '<' :: p₂) (hrep : rep = t ++ p) (hn : ('<' :: n₂) <:+: l) :
    ('<' :: n₂) <:+: replFirst l p rep := by
  induction l with
  | nil =>
    exact absurd (List.eq_nil_of_infix_nil hn) (by simp)
  | cons c cs ih =>
    cases hpf : p.isPrefixOf (c :: cs) with
    | true =>
      obtain ⟨r, hr⟩ := (isPrefixOf_eq_true_iff p (c :: cs)).1 hpf
      have hres : replFirst (c :: cs) p rep = rep ++ r := by
        simp only [replFirst, hpf, if_true]
        rw [← hr, List.drop_left]
      rw [hres, hrep, List.append_assoc]
      exact sub_append_right _ t _ (by rw [hr]; exact hn)
    | false =>
      rcases (List.infix_cons_iff).1 hn with h1 | h2
      · -- the needle is a prefix of l; the pattern cannot start inside it
        obtain ⟨rest, hrest⟩ := h1
        have hnohit : ∀ k, k < ('<' :: n₂).length →
            p.isPrefixOf ((('<' :: n₂) ++ rest).drop k) = false := by
          intro k hk
          match k with
          | 0 =>
            simpa [hrest] using hpf
          | Nat.succ k' =>
            have hk' : k' < n₂.length := by simpa using hk
            have hd : ((('<' :: n₂) ++ rest).drop (k' + 1)) = n₂.drop k' ++ rest := by
              simp only [List.cons_append, List.drop_succ_cons]
              exact List.drop_append_of_le_length (Nat.le_of_lt hk')
            rw [hd]
            cases hkd : n₂.drop k' with
            | nil =>
              have : n₂.length ≤ k' := by
                have := congrArg List.length hkd
                simp at this
                omega
              omega
            | cons d ds =>
              have hdmem : d ∈ n₂ := List.drop_subset k' n₂ (by rw [hkd]; exact List.mem_cons_self d ds)
              have hdne : d ≠ '<' := fun he => hfree (he ▸ hdmem)
              have hbeq : ('<' == d) = false := beq_eq_false_iff_ne.mpr (Ne.symm hdne)
              rw [hp]
              simp [List.isPrefixOf, hbeq]
        have hsplit := replFirst_append_of_no_hit p rep ('<' :: n₂) rest hnohit
        rw [← hrest, hsplit]
        exact ⟨[], replFirst rest p rep, by simp⟩
      · have hneg : ¬ (p.isPrefixOf (c :: cs) = true) := by
          intro hc
          rw [hc] at hpf
          exact absurd hpf (by simp)
        have hres : replFirst (c :: cs) p rep = c :: replFirst cs p rep := by
          simp only [replFirst]
          rw [if_neg hneg]
        rw [hres]
        exact List.infix_cons (ih h2)

/-! ## Shape facts about the literal tags

Every needle searched for by `createFullHTML` starts with the character
`<` and contains no further `<`, and both replacement patterns start with
`<`; moreover each replacement string used ends with the pattern it
replaces.  These facts drive the occurrence-preservation lemma. -/

theorem sub_replFirst_keep (n p t l : Str)
    (hn2 : ∃ n₂, n = '<' :: n₂ ∧ '<' ∉ n₂)
    (hp2 : ∃ p₂, p = '<' :: p₂)
    (hsub : n <:+: l) :
    n <:+: replFirst l p (t ++ p) := by
  obtain ⟨n₂, rfl, hfree⟩ := hn2
  obtain ⟨p₂, rfl⟩ := hp2
  exact sub_replFirst_pres n₂ p₂ t _ _ l hfree rfl rfl hsub

theorem needleDOCTYPE : ∃ n₂, sDOCTYPE = '<' :: n₂ ∧ '<' ∉ n₂ :=
  ⟨str "!DOCTYPE", by decide, by decide⟩

theorem needleHTMLOPEN : ∃ n₂, sHTMLOPEN = '<' :: n₂ ∧ '<' ∉ n₂ :=
  ⟨str "html", by decide, by decide⟩

theorem needleSTYLE : ∃ n₂, sSTYLEOPEN = '<' :: n₂ ∧ '<' ∉ n₂ :=
  ⟨str "style>", by decide, by decide⟩

theorem needleSCRIPT : ∃ n₂, sSCRIPTOPEN = '<' :: n₂ ∧ '<' ∉ n₂ :=
  ⟨str "script>", by decide, by decide⟩

theorem needleBODY : ∃ n₂, sBODYCLOSE = '<' :: n₂ ∧ '<' ∉ n₂ :=
  ⟨str "/body>", by decide, by decide⟩

theorem patHEAD : ∃ p₂, sHEADCLOSE = '<' :: p₂ :=
  ⟨str "/head>", by decide⟩

theorem patBODY : ∃ p₂, sBODYCLOSE = '<' :: p₂ :=
  ⟨str "/body>", by decide⟩

/-! ## Behaviour of the two injection blocks -/

theorem styleStep_keep (h c n : Str)
    (hn2 : ∃ n₂, n = '<' :: n₂ ∧ '<' ∉ n₂) (hsub : n <:+: h) :
    n <:+: styleStep h c := by
  unfold styleStep
  split
  · split
    · exact sub_replFirst_keep n sHEADCLOSE (styleTagOf c ++ sNL) h hn2 patHEAD hsub
    · exact sub_append_right n (styleTagOf c ++ sNL) h hsub
  · exact hsub

theorem scriptStep_keep (h m j n : Str)
    (hn2 : ∃ n₂, n = '<' :: n₂ ∧ '<' ∉ n₂) (hsub : n <:+: m) :
    n <:+: scriptStep h m j := by
  unfold scriptStep
  split
  · split
    · exact sub_replFirst_keep n sBODYCLOSE (scriptTagOf j ++ sNL) m hn2 patBODY hsub
    · exact sub_append_left n (m ++ sNL) (scriptTagOf j) (sub_append_left n m sNL hsub)
  · exact hsub

theorem styleStep_skip (h c : Str)
    (hor : c.isEmpty = true ∨ hasSub h sSTYLEOPEN = true) : styleStep h c = h := by
  unfold styleStep
  rcases hor with h1 | h1 <;> simp [h1]

theorem scriptStep_skip (h m j : Str)
    (hor : j.isEmpty = true ∨ hasSub h sSCRIPTOPEN = true) : scriptStep h m j = m := by
  unfold scriptStep
  rcases hor with h1 | h1 <;> simp [h1]

theorem sub_styleTag (c : Str) : sSTYLEOPEN <:+: styleTagOf c :=
  ⟨[], c ++ str "</style>", rfl⟩

theorem sub_scriptTag (j : Str) : sSCRIPTOPEN <:+: scriptTagOf j :=
  ⟨[], j ++ str "</script>", rfl⟩

theorem styleStep_gives_style (h c : Str) (hc : c.isEmpty = false)
    (hno : hasSub h sSTYLEOPEN = false) : sSTYLEOPEN <:+: styleStep h c := by
  unfold styleStep
  rw [hc, hno]
  simp only [Bool.not_false, Bool.and_self, if_true]
  split
  · next hhead =>
    obtain ⟨a, b, _, hr⟩ := replFirst_of_sub sHEADCLOSE
      (styleTagOf c ++ sNL ++ sHEADCLOSE) h ((hasSub_iff h sHEADCLOSE).1 hhead)
    rw [hr]
    exact sub_append_left _ _ b (sub_append_right _ a _
      (sub_append_left _ (styleTagOf c ++ sNL) sHEADCLOSE
        (sub_append_left _ (styleTagOf c) sNL (sub_styleTag c))))
  · exact sub_append_left _ (styleTagOf c ++ sNL) h
      (sub_append_left _ (styleTagOf c) sNL (sub_styleTag c))

theorem scriptStep_gives_script (h m j : Str) (hj : j.isEmpty = false)
    (hno : hasSub h sSCRIPTOPEN = false)
    (hbody : hasSub h sBODYCLOSE = true → sBODYCLOSE <:+: m) :
    sSCRIPTOPEN <:+: scriptStep h m j := by
  unfold scriptStep
  rw [hj, hno]
  simp only [Bool.not_false, Bool.and_self, if_true]
  split
  · next hb =>
    obtain ⟨a, b, _, hr⟩ := replFirst_of_sub sBODYCLOSE
      (scriptTagOf j ++ sNL ++ sBODYCLOSE) m (hbody hb)
    rw [hr]
    exact sub_append_left _ _ b (sub_append_right _ a _
      (sub_append_left _ (scriptTagOf j ++ sNL) sBODYCLOSE
        (sub_append_left _ (scriptTagOf j) sNL (sub_scriptTag j))))
  · exact sub_append_right _ (m ++ sNL) (scriptTagOf j) (sub_scriptTag j)

/-- If the document already contains a full-document marker, a style tag
and a script tag (as substrings), `createFullHTML` returns it unchanged. -/
theorem createFullHTML_fix (o c j : Str)
    (h1 : (hasSub o sDOCTYPE || hasSub o sHTMLOPEN) = true)
    (h2 : c.isEmpty = true ∨ hasSub o sSTYLEOPEN = true)
    (h3 : j.isEmpty = true ∨ hasSub o sSCRIPTOPEN = true) :
    createFullHTML o c j = o := by
  unfold createFullHTML injectPath
  rw [h1]
  simp only [if_true]
  rw [styleStep_skip o c h2, scriptStep_skip o o j h3]
set_option maxRecDepth 8192

/-- The synthesized template always contains a doctype marker, a style tag
and a script tag, wherever the interpolated pieces sit. -/
theorem wrap_has (h c j : Str) :
    sDOCTYPE <:+: wrapDoc h c j ∧ sSTYLEOPEN <:+: wrapDoc h c j ∧
    sSCRIPTOPEN <:+: wrapDoc h c j := by
  have hd : sDOCTYPE <:+: wrapA := (hasSub_iff wrapA sDOCTYPE).1 (by decide)
  have hst : sSTYLEOPEN <:+: wrapA := (hasSub_iff wrapA sSTYLEOPEN).1 (by decide)
  have hsc : sSCRIPTOPEN <:+: wrapC := (hasSub_iff wrapC sSCRIPTOPEN).1 (by decide)
  unfold wrapDoc
  refine ⟨?_, ?_, ?_⟩
  · exact sub_append_left _ _ wrapD (sub_append_left _ _ j (sub_append_left _ _ wrapC
      (sub_append_left _ _ h (sub_append_left _ _ wrapB
        (sub_append_left _ wrapA c hd)))))
  · exact sub_append_left _ _ wrapD (sub_append_left _ _ j (sub_append_left _ _ wrapC
      (sub_append_left _ _ h (sub_append_left _ _ wrapB
        (sub_append_left _ wrapA c hst)))))
  · exact sub_append_left _ _ wrapD (sub_append_left _ _ j
      (sub_append_right _ (wrapA ++ c ++ wrapB ++ h) wrapC hsc))

/-- C9: assembly is deterministic and idempotent.  Two calls of
`createFullHTML` on the identical triple give identical output, and
re-assembling the output of an assembly with the same css and js leaves
it unchanged: `assemble(assemble(h,c,j),c,j) = assemble(h,c,j)`. -/
theorem assemble_deterministic_idempotent (h c j : Str) :
    createFullHTML h c j = createFullHTML h c j ∧
    createFullHTML (createFullHTML h c j) c j = createFullHTML h c j := by
  refine ⟨rfl, ?_⟩
  cases hcond : (hasSub h sDOCTYPE || hasSub h sHTMLOPEN) with
  | true =>
    have ho : createFullHTML h c j = injectPath h c j := by
      unfold createFullHTML
      rw [hcond]
      simp only [if_true]
    rw [ho]
    apply createFullHTML_fix
    · have hm : hasSub h sDOCTYPE = true ∨ hasSub h sHTMLOPEN = true := by
        simpa using hcond
      rcases hm with hm | hm
      · have : sDOCTYPE <:+: injectPath h c j := by
          unfold injectPath
          exact scriptStep_keep h _ j sDOCTYPE needleDOCTYPE
            (styleStep_keep h c sDOCTYPE needleDOCTYPE ((hasSub_iff h sDOCTYPE).1 hm))
        have := (hasSub_iff _ sDOCTYPE).2 this
        simp [this]
      · have : sHTMLOPEN <:+: injectPath h c j := by
          unfold injectPath
          exact scriptStep_keep h _ j sHTMLOPEN needleHTMLOPEN
            (styleStep_keep h c sHTMLOPEN needleHTMLOPEN ((hasSub_iff h sHTMLOPEN).1 hm))
        have := (hasSub_iff _ sHTMLOPEN).2 this
        simp [this]
    · cases hce : c.isEmpty with
      | true => exact Or.inl rfl
      | false =>
        refine Or.inr ((hasSub_iff _ sSTYLEOPEN).2 ?_)
        unfold injectPath
        cases hst : hasSub h sSTYLEOPEN with
        | true =>
          exact scriptStep_keep h _ j sSTYLEOPEN needleSTYLE
            (styleStep_keep h c sSTYLEOPEN needleSTYLE ((hasSub_iff h sSTYLEOPEN).1 hst))
        | false =>
          exact scriptStep_keep h _ j sSTYLEOPEN needleSTYLE
            (styleStep_gives_style h c hce hst)
    · cases hje : j.isEmpty with
      | true => exact Or.inl rfl
      | false =>
        refine Or.inr ((hasSub_iff _ sSCRIPTOPEN).2 ?_)
        unfold injectPath
        cases hsc : hasSub h sSCRIPTOPEN with
        | true =>
          rw [scriptStep_skip h _ j (Or.inr hsc)]
          exact styleStep_keep h c sSCRIPTOPEN needleSCRIPT
            ((hasSub_iff h sSCRIPTOPEN).1 hsc)
        | false =>
          apply scriptStep_gives_script h (styleStep h c) j hje hsc
          intro hb
          exact styleStep_keep h c sBODYCLOSE needleBODY ((hasSub_iff h sBODYCLOSE).1 hb)
  | false =>
    have ho : createFullHTML h c j = wrapDoc h c j := by
      unfold createFullHTML
      rw [hcond]
      simp only [Bool.false_eq_true, if_false]
    rw [ho]
    obtain ⟨w1, w2, w3⟩ := wrap_has h c j
    apply createFullHTML_fix
    · have := (hasSub_iff _ sDOCTYPE).2 w1
      simp [this]
    · exact Or.inr ((hasSub_iff _ sSTYLEOPEN).2 w2)
    · exact Or.inr ((hasSub_iff _ sSCRIPTOPEN).2 w3)

/-! ## Claims about the bundle assembler -/

/-- C8: fragment wrapping.  For html without a doctype or html-root
marker, the assembled output is exactly the synthesized complete document
with css inside the head-level style block, the html verbatim as the body
content, and js inside the body-level script block; in particular the
html fragment occurs verbatim in the output. -/
theorem assemble_wraps_fragment (h c j : Str)
    (h1 : hasSub h sDOCTYPE = false) (h2 : hasSub h sHTMLOPEN = false) :
    createFullHTML h c j = wrapA ++ c ++ wrapB ++ h ++ wrapC ++ j ++ wrapD ∧
    h <:+: createFullHTML h c j := by
  have ho : createFullHTML h c j = wrapDoc h c j := by
    unfold createFullHTML
    rw [h1, h2]
    simp only [Bool.or_self, Bool.false_eq_true, if_false]
  constructor
  · rw [ho]; rfl
  · rw [ho]
    unfold wrapDoc
    exact sub_append_left _ _ wrapD (sub_append_left _ _ j (sub_append_left _ _ wrapC
      (sub_append_right _ (wrapA ++ c ++ wrapB) h (List.infix_refl h))))

/-- Witness for C8 at a concrete bundle. -/
theorem assemble_wraps_fragment_witness :
    hasSub (str "<h1>Hi</h1>") sDOCTYPE = false ∧
    hasSub (str "<h1>Hi</h1>") sHTMLOPEN = false ∧
    createFullHTML (str "<h1>Hi</h1>") (str "h1 red") (str "go()")
      = wrapA ++ str "h1 red" ++ wrapB ++ str "<h1>Hi</h1>" ++ wrapC ++ str "go()" ++ wrapD :=
  ⟨by decide, by decide,
    (assemble_wraps_fragment (str "<h1>Hi</h1>") (str "h1 red") (str "go()")
      (by decide) (by decide)).1⟩

/-- C10: full-document detection is a case-sensitive substring test.  The
injection (no-wrap) branch runs exactly when the html contains the
literal substring of a doctype or html-root marker anywhere; an input
that only mentions such a substring incidentally is not wrapped, while a
complete document in another casing is wrapped inside a second
synthesized document (its output gains a second doctype marker). -/
theorem assemble_marker_case_sensitive :
    (∀ h c j : Str, (hasSub h sDOCTYPE || hasSub h sHTMLOPEN) = true →
      createFullHTML h c j = injectPath h c j) ∧
    (∀ h c j : Str, (hasSub h sDOCTYPE || hasSub h sHTMLOPEN) = false →
      createFullHTML h c j = wrapDoc h c j) ∧
    ((hasSub lcDoc sDOCTYPE || hasSub lcDoc sHTMLOPEN) = false ∧
      createFullHTML lcDoc (str "b red") (str "go()")
        = wrapDoc lcDoc (str "b red") (str "go()") ∧
      countSub lcDoc sDOCTYPE = 0 ∧
      countSub (createFullHTML lcDoc (str "b red") (str "go()")) sDOCTYPE = 1) ∧
    ((hasSub incHtml sDOCTYPE || hasSub incHtml sHTMLOPEN) = true ∧
      createFullHTML incHtml (str "b red") (str "go()")
        = injectPath incHtml (str "b red") (str "go()") ∧
      hasSub (createFullHTML incHtml (str "b red") (str "go()")) (str "<title>") = false) := by
  refine ⟨?_, ?_, by decide, by decide⟩
  · intro h c j hcond
    unfold createFullHTML
    rw [hcond]
    simp only [if_true]
  · intro h c j hcond
    unfold createFullHTML
    rw [hcond]
    simp only [Bool.false_eq_true, if_false]

/-- Witness for C10 at a concrete input containing an html-root marker. -/
theorem assemble_marker_case_sensitive_witness :
    createFullHTML (str "<html></html>") [] []
      = injectPath (str "<html></html>") [] [] :=
  assemble_marker_case_sensitive.1 (str "<html></html>") [] [] (by decide)

/-- C4 counterexample: an html input that already contains a style block
(and a full-document marker) still receives a NEW script block when js is
non-empty, so the number of script blocks in the output exceeds the
number in the input, contradicting the claim for inputs that hold only
one of the two kinds of block. -/
theorem double_injection_cex :
    hasSub styleOnlyDoc sSTYLEOPEN = true ∧
    countSub styleOnlyDoc sSCRIPTOPEN = 0 ∧
    countSub (createFullHTML styleOnlyDoc [] (str "alert(1)")) sSCRIPTOPEN = 1 := by decide

/-- C4 amended: on the full-document path the two checks are independent;
assembly inserts nothing exactly when the html already contains BOTH a
style block and a script block, in which case the output is the input
unchanged.  (With only one of the two present, the other is still
injected, as the counterexample shows.) -/
theorem assemble_no_reinject_when_both_present (h c j : Str)
    (hm : (hasSub h sDOCTYPE || hasSub h sHTMLOPEN) = true)
    (hst : hasSub h sSTYLEOPEN = true) (hsc : hasSub h sSCRIPTOPEN = true) :
    createFullHTML h c j = h :=
  createFullHTML_fix h c j hm (Or.inr hst) (Or.inr hsc)

/-- Witness for the amended C4 at a concrete document holding both
blocks. -/
theorem assemble_no_reinject_when_both_present_witness :
    createFullHTML (str "<html><style>a</style><script>b</script></html>")
        (str "c red") (str "go()")
      = str "<html><style>a</style><script>b</script></html>" :=
  assemble_no_reinject_when_both_present
    (str "<html><style>a</style><script>b</script></html>") (str "c red") (str "go()")
    (by decide) (by decide) (by decide)

/-! ## Claims about the preview controller -/

theorem run_append (s : PState) (a b : List Ev) :
    run s (a ++ b) = run (run s a) b := by
  simp [run, List.foldl_append]

theorem step_tick (s : PState) : step s Ev.tick = s := rfl

theorem run_replicate_tick (n : Nat) (s : PState) :
    run s (List.replicate n Ev.tick) = s := by
  induction n generalizing s with
  | zero => rfl
  | succ k ih =>
    rw [List.replicate_succ]
    show run (step s Ev.tick) (List.replicate k Ev.tick) = s
    rw [step_tick]
    exact ih s

theorem step_mono_useWC (s : PState) (e : Ev) (h : s.useWebContainer = false) :
    (step s e).useWebContainer = false := by
  cases e with
  | bootOk => exact h
  | bootFail => rfl
  | bundleChange id => simp only [step]; split <;> exact h
  | mountOrInstallFail => simp only [step]; split <;> simp [h]
  | startSpawnFail => simp only [step]; split <;> exact h
  | serverReady id => simp only [step]; split <;> exact h
  | tick => exact h

theorem step_keeps_hasInstance (s : PState) (e : Ev) (h : s.hasInstance = true) :
    (step s e).hasInstance = true := by
  cases e with
  | bootOk => rfl
  | bootFail => exact h
  | bundleChange id => simp only [step]; split <;> exact h
  | mountOrInstallFail => simp only [step]; split <;> simp [h]
  | startSpawnFail => simp only [step]; split <;> exact h
  | serverReady id => simp only [step]; split <;> exact h
  | tick => exact h

/-- C5: mode monotonicity.  Under every sequence of boot/mount failure
and success events, Fallback mode is absorbing: once `useWebContainer` is
false it stays false for the rest of the session, so the two-valued mode
changes at most once and only in the direction Sandboxed to Fallback. -/
theorem mode_monotone :
    ∀ (s : PState) (evs : List Ev), s.useWebContainer = false →
      (run s evs).useWebContainer = false := by
  intro s evs
  induction evs generalizing s with
  | nil => exact fun h => h
  | cons e es ih =>
    intro h
    exact ih (step s e) (step_mono_useWC s e h)

/-- Witness for C5: a session already demoted to Fallback stays there
across further boot, bundle and server-ready events. -/
theorem mode_monotone_witness :
    (run { psInit with useWebContainer := false }
        [Ev.bootOk, Ev.bundleChange 7, Ev.serverReady 7]).useWebContainer = false :=
  mode_monotone { psInit with useWebContainer := false }
    [Ev.bootOk, Ev.bundleChange 7, Ev.serverReady 7] (by rfl)

/-- C1 counterexample: requests R1 then R2 are issued, R2's server-ready
result arrives first and R1's arrives later; the render target then shows
R1's URL, not R2's — the superseded attempt's result is not discarded. -/
theorem last_request_wins_cex :
    shown (run psInit [Ev.bootOk, Ev.bundleChange 1, Ev.bundleChange 2,
      Ev.serverReady 2, Ev.serverReady 1]) = Shown.sandboxed 1 ∧
    shown (run psInit [Ev.bootOk, Ev.bundleChange 1, Ev.bundleChange 2,
      Ev.serverReady 2, Ev.serverReady 1]) ≠ Shown.sandboxed 2 := by decide

/-- C1 amended: last-ARRIVAL-wins.  The server-ready listener updates the
url unconditionally, so after any event sequence the url is the one
carried by the most recently arrived server-ready event (or the previous
url when none arrived) — regardless of the order in which the mounts were
requested. -/
theorem url_last_arrival_wins :
    ∀ (s : PState) (evs : List Ev), s.hasInstance = true →
      (run s evs).url = lastReadyFrom s.url evs := by
  intro s evs
  induction evs generalizing s with
  | nil => intro _; rfl
  | cons e es ih =>
    intro h
    show (run (step s e) es).url = lastReadyFrom s.url (e :: es)
    rw [ih (step s e) (step_keeps_hasInstance s e h)]
    have : (step s e).url
        = (match e with | Ev.serverReady id => some id | _ => s.url) := by
      cases e with
      | bootOk => rfl
      | bootFail => rfl
      | tick => rfl
      | bundleChange id =>
        simp only [step]
        split <;> rfl
      | mountOrInstallFail =>
        simp only [step]
        split <;> rfl
      | startSpawnFail =>
        simp only [step]
        split <;> rfl
      | serverReady id => simp [step, h]
    rw [this]
    cases e <;> rfl

/-- Witness for the amended C1 on the out-of-order trace. -/
theorem url_last_arrival_wins_witness :
    (run (step psInit Ev.bootOk) [Ev.bundleChange 1, Ev.bundleChange 2,
        Ev.serverReady 2, Ev.serverReady 1]).url
      = lastReadyFrom (step psInit Ev.bootOk).url
          [Ev.bundleChange 1, Ev.bundleChange 2, Ev.serverReady 2, Ev.serverReady 1] :=
  url_last_arrival_wins (step psInit Ev.bootOk)
    [Ev.bundleChange 1, Ev.bundleChange 2, Ev.serverReady 2, Ev.serverReady 1] (by rfl)

/-- C2 counterexample: in the reachable state after a successful boot and
a bundle arrival, the controller is in Sandboxed mode with a mount
attempt pending (no URL yet), and the render target shows the
fallback-assembled srcDoc content — content of the inactive mode is
presented while the active mode's content is still pending. -/
theorem single_mode_cex :
    (run psInit [Ev.bootOk, Ev.bundleChange 1]).useWebContainer = true ∧
    (run psInit [Ev.bootOk, Ev.bundleChange 1]).isLoading = true ∧
    (run psInit [Ev.bootOk, Ev.bundleChange 1]).url = none ∧
    shown (run psInit [Ev.bootOk, Ev.bundleChange 1]) = Shown.fallbackDoc := by decide

/-- C2 amended: the render conditional presents exactly one surface at a
time — the sandboxed iframe exactly when the mode is Sandboxed AND a
preview URL exists — but whenever the URL is still pending (or the mode
is Fallback) the fallback srcDoc document is what is shown, including
while Sandboxed mode is waiting for its URL. -/
theorem shown_single_surface :
    ∀ s : PState,
      (s.useWebContainer = true → ∀ i, s.url = some i → shown s = Shown.sandboxed i) ∧
      (s.useWebContainer = false ∨ s.url = none → shown s = Shown.fallbackDoc) := by
  intro s
  constructor
  · intro h i hi
    simp [shown, h, hi]
  · intro h
    rcases h with h | h
    · cases hu : s.url <;> simp [shown, h, hu]
    · cases hw : s.useWebContainer <;> simp [shown, h, hw]

/-- Witness for the amended C2 at the pending-mount state. -/
theorem shown_single_surface_witness :
    shown (run psInit [Ev.bootOk, Ev.bundleChange 3]) = Shown.fallbackDoc :=
  (shown_single_surface (run psInit [Ev.bootOk, Ev.bundleChange 3])).2 (Or.inr (by rfl))

/-- C3 counterexample: after a boot and a mount request, 100000 units of
time pass without the server-ready event; the controller is still in the
loading state, still Sandboxed, with no error notification and no
fallback transition — no timeout ceiling converts the wait into an
ExecError. -/
theorem bounded_wait_cex :
    (run psInit stuckTrace).isLoading = true ∧
    (run psInit stuckTrace).useWebContainer = true ∧
    (run psInit stuckTrace).url = none ∧
    (run psInit stuckTrace).errorToasts = 0 := by
  have h : run psInit stuckTrace
      = run (run psInit [Ev.bootOk, Ev.bundleChange 1]) (List.replicate 100000 Ev.tick) := by
    rw [show stuckTrace
        = [Ev.bootOk, Ev.bundleChange 1] ++ List.replicate 100000 Ev.tick from rfl,
      run_append]
  rw [h, run_replicate_tick]
  decide

/-- C3 amended: the wait for server-ready is unbounded.  No code reacts
to the passage of time, so for EVERY number n of elapsed time units with
the event never firing, the controller remains loading in Sandboxed mode
with no error notification; the attempt never resolves as an ExecError. -/
theorem wait_unbounded (n : Nat) :
    (run psInit (Ev.bootOk :: Ev.bundleChange 1 :: List.replicate n Ev.tick)).isLoading = true ∧
    (run psInit (Ev.bootOk :: Ev.bundleChange 1 :: List.replicate n Ev.tick)).useWebContainer = true ∧
    (run psInit (Ev.bootOk :: Ev.bundleChange 1 :: List.replicate n Ev.tick)).errorToasts = 0 := by
  have h : run psInit (Ev.bootOk :: Ev.bundleChange 1 :: List.replicate n Ev.tick)
      = run (run psInit [Ev.bootOk, Ev.bundleChange 1]) (List.replicate n Ev.tick) := rfl
  rw [h, run_replicate_tick]
  decide

theorem step_unhandled_other (s : PState) (e : Ev) (he : e ≠ Ev.startSpawnFail) :
    (step s e).unhandled = s.unhandled := by
  cases e with
  | startSpawnFail => exact absurd rfl he
  | bundleChange id => simp [step]; split <;> rfl
  | mountOrInstallFail => simp [step]; split <;> rfl
  | serverReady id => simp [step]; split <;> rfl
  | _ => rfl

/-- C6 counterexample: after a successful boot and a bundle arrival, the
un-awaited server-start spawn rejects; the rejection escapes as an
unhandled rejection, with no mode transition and no notification. -/
theorem error_capture_cex :
    (run psInit [Ev.bootOk, Ev.bundleChange 1, Ev.startSpawnFail]).unhandled = 1 ∧
    (run psInit [Ev.bootOk, Ev.bundleChange 1, Ev.startSpawnFail]).useWebContainer = true ∧
    (run psInit [Ev.bootOk, Ev.bundleChange 1, Ev.startSpawnFail]).errorToasts = 0 := by decide

/-- C6 amended: boot failures and awaited mount/install failures are
caught and converted into a Fallback transition plus an error
notification, and traces without a server-start spawn rejection produce
no unhandled rejection at all; but a rejection of the un-awaited
server-start spawn escapes as an unhandled rejection while changing
neither the mode nor the notification count. -/
theorem error_capture_amended :
    (∀ (s : PState) (evs : List Ev), Ev.startSpawnFail ∉ evs →
      (run s evs).unhandled = s.unhandled) ∧
    (∀ s : PState,
      (step s Ev.bootFail).useWebContainer = false ∧
      (step s Ev.bootFail).errorToasts = s.errorToasts + 1 ∧
      (step s Ev.bootFail).unhandled = s.unhandled) ∧
    (∀ s : PState, s.hasInstance = true →
      (step s Ev.mountOrInstallFail).useWebContainer = false ∧
      (step s Ev.mountOrInstallFail).errorToasts = s.errorToasts + 1 ∧
      (step s Ev.mountOrInstallFail).unhandled = s.unhandled) ∧
    (∀ s : PState, s.hasInstance = true →
      (step s Ev.startSpawnFail).unhandled = s.unhandled + 1 ∧
      (step s Ev.startSpawnFail).useWebContainer = s.useWebContainer ∧
      (step s Ev.startSpawnFail).errorToasts = s.errorToasts) := by
  refine ⟨?_, ?_, ?_, ?_⟩
  · intro s evs
    induction evs generalizing s with
    | nil => intro _; rfl
    | cons e es ih =>
      intro hmem
      have he : e ≠ Ev.startSpawnFail := fun hh => hmem (hh ▸ List.mem_cons_self e es)
      have hes : Ev.startSpawnFail ∉ es := fun hh => hmem (List.mem_cons_of_mem e hh)
      show (run (step s e) es).unhandled = s.unhandled
      rw [ih (step s e) hes, step_unhandled_other s e he]
  · intro s
    exact ⟨rfl, rfl, rfl⟩
  · intro s h
    simp [step, h]
  · intro s h
    simp [step, h]

/-- Witness for the amended C6: the escape of the un-awaited spawn
rejection in the booted state. -/
theorem error_capture_amended_witness :
    (step (step psInit Ev.bootOk) Ev.startSpawnFail).unhandled
        = (step psInit Ev.bootOk).unhandled + 1 ∧
    (step (step psInit Ev.bootOk) Ev.startSpawnFail).useWebContainer
        = (step psInit Ev.bootOk).useWebContainer ∧
    (step (step psInit Ev.bootOk) Ev.startSpawnFail).errorToasts
        = (step psInit Ev.bootOk).errorToasts :=
  error_capture_amended.2.2.2 (step psInit Ev.bootOk) (by rfl)

/-- C7 counterexample: the fallback srcDoc iframe's sandbox attribute
grants `allow-modals` in addition to the three claimed capabilities, so
the granted set is not EXACTLY the claimed one. -/
theorem sandbox_tokens_cex :
    "allow-modals" ∈ fallbackSandboxTokens ∧
    "allow-modals" ∉ specCapabilityTokens := by decide

/-- C7 amended: the fallback frame is granted exactly script execution,
same-origin access, form submission AND modal dialogs; no token granting
top-level navigation or popups is present. -/
theorem sandbox_tokens_amended :
    fallbackSandboxTokens = specCapabilityTokens ++ ["allow-modals"] ∧
    "allow-top-navigation" ∉ fallbackSandboxTokens ∧
    "allow-top-navigation-by-user-activation" ∉ fallbackSandboxTokens ∧
    "allow-popups" ∉ fallbackSandboxTokens := by decide
